import Mathlib

/-!
Verification development for the retrieval-augmented hint generation and
rate-limiting core of the SCM course platform.

The Python source (`src/backend.py`, `src/modules/base.py`,
`src/modules/seven_eleven.py`) is shallowly embedded below:

* timestamps are modelled as integers (seconds); `datetime.utcnow()` becomes
  an explicit `now : Int` carried by the environment;
* the mutable module-level caches (`_pdf_chunks_by_section`,
  `_pdf_embeddings_by_section`, `_user_queries`) become an explicit state
  record `St` threaded through the functions;
* the external OpenAI calls become an environment `QEnv` of oracles whose
  outcomes are `Except PyErr _`; `PyErr.rateLimit` models
  `openai.RateLimitError`, `PyErr.openai` models any other
  `openai.OpenAIError`, and `PyErr.other` models any other Python exception
  (`except` clauses are translated in source order, so a `rateLimit` error is
  also caught by an `OpenAIError` handler, mirroring the class hierarchy);
* a Python `raise` that escapes a function is modelled by returning the
  error (together with the state mutated so far, since Python's module-level
  state survives an exception);
* embedding vectors are modelled as lists of rationals and numpy's float
  cosine similarity as the corresponding real-valued function;
* `time.sleep` backoff delays have no observable effect on the modelled
  state and are omitted.
-/

set_option maxRecDepth 10000

/-- An embedding vector, as returned by the embedding service. -/
abbrev Vec := List ℚ

/-- Kinds of Python exceptions distinguished by the source's handlers. -/
inductive PyErr where
  | rateLimit
  | openai
  | other
deriving DecidableEq, Repr

/-- Result object of `openai.chat.completions.create`: the message content and
the (possibly absent) `usage.total_tokens` field. -/
structure Completion where
  content : String
  usage : Option Nat
deriving DecidableEq, Repr

/-- The process-wide rate configuration `_config` of `backend.py`. -/
structure RateConfig where
  maxQueriesPerHour : Nat
  maxTokensPerDay : Nat
deriving DecidableEq, Repr

/-- The `_user_queries` dict: email to list of (timestamp, token count). -/
abbrev QueryMap := List (String × List (Int × Nat))

/-- Lookup in an association list (Python dict read). -/
def alookup {α : Type} : List (String × α) → String → Option α
  | [], _ => none
  | (k, v) :: rest, key => if k = key then some v else alookup rest key

/-- Insert or overwrite a key (Python dict assignment). -/
def ainsert {α : Type} : List (String × α) → String → α → List (String × α)
  | [], k, v => [(k, v)]
  | (k', v') :: rest, k, v =>
      if k' = k then (k, v) :: rest else (k', v') :: ainsert rest k v

/-- Module-level mutable state of `backend.py`: the per-section chunk cache,
the per-section embedding cache and the rate-limiting ledger. -/
structure St where
  chunksBySection : List (String × List String)
  embsBySection : List (String × List Vec)
  userQueries : QueryMap
deriving DecidableEq

/-- Module-level mutable state of `modules/seven_eleven.py`: the flat chunk
and embedding caches plus the shared rate-limiting ledger. -/
structure SeSt where
  chunks : List String
  embs : List Vec
  userQueries : QueryMap
deriving DecidableEq

/-- Instrumentation counters for one `answer_query` invocation: how often
`check_rate_limit`, `record_query` and the completion service were called. -/
structure Trace where
  checkCalls : Nat
  recordCalls : Nat
  completionCalls : Nat
deriving DecidableEq, Repr

/-- Environment of external effects: the current time, the filesystem check,
PDF text extraction and the three OpenAI entry points.  The completion oracle
receives the system message, the user message and the attempt index. -/
structure QEnv where
  now : Int
  pdfExists : String → Bool
  extract : String → Except PyErr String
  embedBatch : List String → Except PyErr (List Vec)
  embedQuery : String → Except PyErr Vec
  completion : String → String → Nat → Except PyErr Completion

/-- Message of the hourly rejection branch of `check_rate_limit`. -/
def hourlyMsg (cfg : RateConfig) : String :=
  "Rate limit exceeded: Max " ++ toString cfg.maxQueriesPerHour ++ " queries per hour"

/-- Message of the daily token rejection branch of `check_rate_limit`. -/
def tokenMsg (cfg : RateConfig) : String :=
  "Token limit exceeded: Max " ++ toString cfg.maxTokensPerDay ++ " tokens per day"

/-- Embedding of `backend.check_rate_limit` (backend.py lines 44-70).
Prunes entries older than 24 hours, writes the pruned list back, then checks
the hourly query count and the daily token budget.  Returns the
(allowed, message) pair together with the updated ledger map. -/
def checkRateLimit (cfg : RateConfig) (m : QueryMap) (email : String)
    (estimatedTokens : Nat) (now : Int) : (Bool × String) × QueryMap :=
  let dayAgo : Int := now - 86400
  let hourAgo : Int := now - 3600
  let cleaned := ((alookup m email).getD []).filter (fun e => dayAgo < e.1)
  let m' := ainsert m email cleaned
  let recentQueries := cleaned.filter (fun e => hourAgo < e.1)
  if cfg.maxQueriesPerHour ≤ recentQueries.length then
    ((false, hourlyMsg cfg), m')
  else
    let dailyTokens := ((cleaned.filter (fun e => dayAgo < e.1)).map (fun e => e.2)).sum
    if cfg.maxTokensPerDay < dailyTokens + estimatedTokens then
      ((false, tokenMsg cfg), m')
    else
      ((true, "OK"), m')

/-- Embedding of `backend.record_query` (backend.py lines 72-77): append a
(now, tokens) entry to the user's ledger, without pruning. -/
def recordQuery (m : QueryMap) (email : String) (tokens : Nat) (now : Int) : QueryMap :=
  ainsert m email (((alookup m email).getD []) ++ [(now, tokens)])

/-- Python's `\s` test for the ASCII whitespace characters. -/
def isPySpace (c : Char) : Bool :=
  c = ' ' || c = '\t' || c = '\n' || c = '\x0b' || c = '\x0c' || c = '\r'

/-- Python's `str.strip()`: drop leading and trailing whitespace.  Implemented
structurally over the character list so that it reduces in the kernel
(`String.trim` is extensionally the same on the inputs arising here). -/
def pyStrip (s : String) : String :=
  String.mk (((s.data.dropWhile isPySpace).reverse.dropWhile isPySpace).reverse)

/-- Index of the last newline in a character list, if any. -/
def lastNewlinePos (cs : List Char) : Option Nat :=
  match cs.reverse.findIdx? (fun c => c = '\n') with
  | some r => some (cs.length - 1 - r)
  | none => none

/-- Scanner for `re.split(r'\n\s*\n', text)`: a separator is a newline, a
greedy run of whitespace, and a final newline.  `fuel` bounds the recursion;
every step consumes at least one character, so `length + 1` fuel suffices and
the fuel-exhaustion arm is unreachable for the initial call. -/
def psplitGo : Nat → List Char → List Char → List (List Char)
  | 0, rest, buf => [buf.reverse ++ rest]
  | _ + 1, [], buf => [buf.reverse]
  | fuel + 1, c :: rest, buf =>
    if c = '\n' then
      let ws := rest.takeWhile isPySpace
      let tail := rest.dropWhile isPySpace
      match lastNewlinePos ws with
      | some k => buf.reverse :: psplitGo fuel (ws.drop (k + 1) ++ tail) []
      | none => psplitGo fuel rest (c :: buf)
    else
      psplitGo fuel rest (c :: buf)

/-- Paragraph split `re.split(r'\n\s*\n', text)` on the character list. -/
def psplit (cs : List Char) : List (List Char) :=
  psplitGo (cs.length + 1) cs []

/-- Paragraph extraction of `split_into_chunks`: split on blank lines, strip
each piece, keep the non-empty ones (backend.py line 94). -/
def splitParagraphs (text : String) : List String :=
  ((psplit text.data).map (fun cs => pyStrip (String.mk cs))).filter (fun p => p ≠ "")

/-- Sentence boundary characters of `re.split(r'(?<=[.!?]) +', para)`. -/
def isSentEnd (c : Char) : Bool :=
  c = '.' || c = '!' || c = '?'

/-- Scanner for `re.split(r'(?<=[.!?]) +', para)`: split after a sentence-end
character followed by a greedy run of spaces; the spaces are consumed. -/
def ssplitGo : Nat → List Char → List Char → List (List Char)
  | 0, rest, buf => [buf.reverse ++ rest]
  | _ + 1, [], buf => [buf.reverse]
  | fuel + 1, c :: rest, buf =>
    if isSentEnd c ∧ rest.head? = some ' ' then
      (c :: buf).reverse :: ssplitGo fuel (rest.dropWhile (fun d => d = ' ')) []
    else
      ssplitGo fuel rest (c :: buf)

/-- Sentence split of a paragraph's character list. -/
def ssplit (cs : List Char) : List (List Char) :=
  ssplitGo (cs.length + 1) cs []

/-- The sentence-accumulation loop of `backend.split_into_chunks`
(backend.py lines 100-108): greedily merge sentences into `temp` while the
combined length stays below the threshold, flushing `temp.strip()` otherwise;
the trailing buffer is flushed if non-empty. -/
def accumSentences (minLength : Nat) : List String → String → List String
  | [], temp => if temp ≠ "" then [pyStrip temp] else []
  | sent :: rest, temp =>
    if temp.length + sent.length < minLength then
      accumSentences minLength rest (temp ++ " " ++ sent)
    else
      pyStrip temp :: accumSentences minLength rest sent

/-- Chunks contributed by one paragraph: paragraphs below the threshold are
sentence-split and re-accumulated, paragraphs at or above it are kept whole
(backend.py lines 96-110). -/
def chunkPara (minLength : Nat) (para : String) : List String :=
  if para.length < minLength then
    accumSentences minLength ((ssplit para.data).map String.mk) ""
  else
    [para]

/-- Embedding of `backend.split_into_chunks` (backend.py lines 92-111): split
into paragraphs, chunk each, and drop every chunk of length ≤ 50. -/
def split_into_chunks (text : String) (minLength : Nat) : List String :=
  ((splitParagraphs text).flatMap (chunkPara minLength)).filter (fun c => 50 < c.length)

/-- Numpy dot product of two equal-length vectors. -/
def npDot (a b : Vec) : ℚ :=
  (List.zipWith (fun x y => x * y) a b).sum

/-- Numpy Euclidean norm `np.linalg.norm`. -/
noncomputable def npNorm (a : Vec) : ℝ :=
  Real.sqrt ((npDot a a : ℚ) : ℝ)

/-- Embedding of `backend.cosine_similarity` (backend.py lines 388-392):
`dot(a, b) / (norm(a) * norm(b))`, with numpy's floats modelled as reals. -/
noncomputable def cosine_similarity (a b : Vec) : ℝ :=
  ((npDot a b : ℚ) : ℝ) / (npNorm a * npNorm b)

/-- Python's `max(sims)` on a non-empty list (the empty case is unreachable
in the source because retrieval guards on emptiness first). -/
noncomputable def listMax : List ℝ → ℝ
  | [] => 0
  | x :: xs => xs.foldl max x

/-- Python's `sims.index(v)`: the index of the first occurrence of `v`. -/
noncomputable def pyIndex : List ℝ → ℝ → Nat
  | [], _ => 0
  | x :: xs, v => if x = v then 0 else pyIndex xs v + 1

/-- The retrieval step of `answer_query` (backend.py lines 422-435): if
either cached list is empty the best chunk is the empty string; otherwise the
chunk whose embedding has the highest cosine similarity is selected via
`sims.index(max(sims))`.  An out-of-range index (`IndexError`, caught by the
surrounding handler and converted to `""`) is modelled by `getD _ ""`. -/
noncomputable def find_best_chunk (queryEmb : Vec) : List Vec → List String → String
  | [], _ => ""
  | _ :: _, [] => ""
  | e :: es, c :: cs =>
    let sims := (e :: es).map (cosine_similarity queryEmb)
    let bestIdx := pyIndex sims (listMax sims)
    (c :: cs).getD bestIdx ""

/-- The `SECTION_PDFS` map combined with `_pdf_path_for_section`
(backend.py lines 79-83 and 123-127): `"Dragon Fire Case"` maps to `None` and
unknown sections are absent, both of which yield no path. -/
def sectionPdfFilename : String → Option String
  | "Ch.3" => some "WHU_BSc_Fall 2024_session 3.pdf"
  | "7-Eleven Case 2015" => some "7eleven case 2015.pdf"
  | _ => none

/-- The chunk list `answer_query` sees for a section:
`_pdf_chunks_by_section.get(section, [])`. -/
def chunksOf (st : St) (sec : String) : List String :=
  (alookup st.chunksBySection sec).getD []

/-- The embedding list `answer_query` sees for a section:
`_pdf_embeddings_by_section.get(section, [])`. -/
def embsOf (st : St) (sec : String) : List Vec :=
  (alookup st.embsBySection sec).getD []

/-- Embedding of `backend.ensure_embeddings` (backend.py lines 129-146).
Returns the new state together with the exception it raised, if any: the
batch embedding call is not wrapped in a handler there, so its failure
escapes after the chunk cache has already been written. -/
def ensure_embeddings (env : QEnv) (st : St) (sec : String) : St × Option PyErr :=
  if (alookup st.chunksBySection sec).isSome ∧ (alookup st.embsBySection sec).isSome then
    (st, none)
  else
    match sectionPdfFilename sec with
    | none =>
      (⟨ainsert st.chunksBySection sec [], ainsert st.embsBySection sec [], st.userQueries⟩, none)
    | some path =>
      if env.pdfExists path = false then
        (⟨ainsert st.chunksBySection sec [], ainsert st.embsBySection sec [], st.userQueries⟩, none)
      else
        match env.extract path with
        | Except.error e => (st, some e)
        | Except.ok text =>
          let chunks := split_into_chunks text 300
          if chunks = [] then
            (⟨ainsert st.chunksBySection sec chunks, ainsert st.embsBySection sec [],
              st.userQueries⟩, none)
          else
            match env.embedBatch chunks with
            | Except.error e =>
              (⟨ainsert st.chunksBySection sec chunks, st.embsBySection, st.userQueries⟩, some e)
            | Except.ok vs =>
              (⟨ainsert st.chunksBySection sec chunks, ainsert st.embsBySection sec vs,
                st.userQueries⟩, none)

/-- The catch-all message of `answer_query`'s outermost handler. -/
def techMsg : String :=
  "A technical error occurred. Please contact support if this persists."

/-- Message returned when the query embedding call fails with an OpenAI error. -/
def embedTroubleMsg : String :=
  "I\x27m having trouble processing your question right now. Please try again in a few moments."

/-- Message returned when the query embedding call fails with any other error. -/
def techIssueMsg : String :=
  "There was a technical issue. Please try again later."

/-- Message returned after three rate-limited completion attempts. -/
def busyMsg : String :=
  "The AI service is currently busy. Please try again in a few minutes."

/-- Message returned after three generally failed OpenAI completion attempts. -/
def connMsg : String :=
  "I\x27m having trouble connecting to the AI service. Please try again later."

/-- Message returned when a completion attempt raises a non-OpenAI exception. -/
def unexpectedMsg : String :=
  "Something went wrong while processing your question. Please try again."

/-- Message of the (unreachable) loop fall-through at backend.py line 510,
also used by the seven-eleven module's loop fall-through. -/
def exhaustMsg : String :=
  "Unable to process your question at this time. Please try again later."

/-- Suffix appended to a rate-limit rejection message. -/
def rlSuffix : String :=
  ". Please try again later."

/-- The fixed hint-only system instruction of backend.py lines 443-445. -/
def baseSystemContext : String :=
  "You are a supply chain course assistant. Use the following context to give helpful hints for the assignment question, but do NOT solve it directly. Encourage the student to think and guide them to the right concepts or formulas. If the student asks for a solution, only provide hints and steps, not the final answer.\n"

/-- The Dragon Fire section augmentation of backend.py lines 449-458. -/
def dragonFireContext : String :=
  "\nDragon Fire Case Context: Blue Dragon (Austria) is launching an energy drink in China\x27s high-end market. Key facts: 25 Yuan price point, coca leaf-based (not caffeine), powder shipped from Austria, mixed with water in China, distributed to bars/clubs/restaurants. Transportation options: Sea (30-35 days, $2-3k/container), Air (3-5 days, $8-12/kg), Rail (18-25 days, $4-5k/container). Main Chinese ports: Shanghai, Ningbo, Shenzhen. Consider: regulatory risks of coca leaf products, temperature sensitivity, premium market requirements, supply chain disruptions (Suez Canal, port closures, etc.). Guide students through systematic analysis of volume calculations, mode selection, risk management, and total cost optimization."

/-- The 7-Eleven section augmentation of backend.py lines 460-464. -/
def sevenElevenContext : String :=
  "\n7-Eleven Japan Context: 16,000 stores, 158 DCs, Combined Delivery System (CDS), 3 deliveries/day, 10 stores/truck, ¥50,000 per truck/run, 3 temperature zones, 65% fresh food share, ~3 hour DC-store lead time. Compare with US operations and DSD alternatives."

/-- The section-specific system message of backend.py lines 443-464. -/
def systemContext (sec : String) : String :=
  baseSystemContext ++
    (if sec = "Dragon Fire Case" then dragonFireContext
     else if sec = "7-Eleven Case 2015" then sevenElevenContext
     else "")

/-- The user prompt assembled at backend.py lines 438-440 (identical format
in seven_eleven.py lines 145-147). -/
def promptOf (bestChunk a q : String) : String :=
  "Context: " ++ bestChunk ++ "\nAssignment Question: " ++ a ++
    "\nStudent Query: " ++ q ++ "\nHint:"

def bumpCalls {sigma : Type} (r : String × sigma × Nat × Nat) : String × sigma × Nat × Nat :=
  (r.1, r.2.1, r.2.2.1 + 1, r.2.2.2)

/-- One iteration body of the backend retry loop: dispatch on the completion
outcome.  `fuel` is the fuel remaining after this attempt; `fuel = 0` means
this was the last attempt (`attempt = max_retries - 1`), in which case an
upstream error returns its give-up message instead of retrying. -/
def completionHandle (em : String) (env : QEnv) (st : St) (fuel : Nat)
    (retry : Unit → String × St × Nat × Nat) :
    Except PyErr Completion → String × St × Nat × Nat
  | Except.ok resp =>
    if em = "" then
      (pyStrip resp.content, st, 1, 0)
    else
      (pyStrip resp.content,
       ⟨st.chunksBySection, st.embsBySection,
        recordQuery st.userQueries em (resp.usage.getD 150) env.now⟩, 1, 1)
  | Except.error PyErr.rateLimit =>
    if fuel = 0 then (busyMsg, st, 1, 0) else bumpCalls (retry ())
  | Except.error PyErr.openai =>
    if fuel = 0 then (connMsg, st, 1, 0) else bumpCalls (retry ())
  | Except.error PyErr.other => (unexpectedMsg, st, 1, 0)

/-- The retry loop of `answer_query` (backend.py lines 467-510), indexed by
remaining fuel (initially 3 = `max_retries`) and the current attempt number.
Returns (result, state, completion calls made, record_query calls made). -/
def completionLoop (env : QEnv) (sys usr em : String) :
    Nat → Nat → St → String × St × Nat × Nat
  | 0, _, st => (exhaustMsg, st, 0, 0)
  | fuel + 1, attempt, st =>
    completionHandle em env st fuel
      (fun _ => completionLoop env sys usr em fuel (attempt + 1) st)
      (env.completion sys usr attempt)

/-- The body of `answer_query` after a passed (or skipped) rate check:
index construction, query embedding, retrieval, prompt assembly and the
completion retry loop.  An escaping exception is returned as `Except.error`
with the state mutated so far. -/
noncomputable def answerAfterCheck (env : QEnv) (st : St) (q a sec em : String) (cc : Nat) :
    Except (PyErr × St × Trace) (String × St × Trace) :=
  let er := ensure_embeddings env st sec
  match er.2 with
  | some e => Except.error (e, er.1, ⟨cc, 0, 0⟩)
  | none =>
    let st1 := er.1
    let fullQuery := if a = "" then q else q ++ "\nAssignment Question: " ++ a
    match env.embedQuery fullQuery with
    | Except.error PyErr.rateLimit => Except.ok (embedTroubleMsg, st1, ⟨cc, 0, 0⟩)
    | Except.error PyErr.openai => Except.ok (embedTroubleMsg, st1, ⟨cc, 0, 0⟩)
    | Except.error PyErr.other => Except.ok (techIssueMsg, st1, ⟨cc, 0, 0⟩)
    | Except.ok queryEmb =>
      let bestChunk := find_best_chunk queryEmb (embsOf st1 sec) (chunksOf st1 sec)
      let r := completionLoop env (systemContext sec) (promptOf bestChunk a q) em 3 0 st1
      Except.ok (r.1, r.2.1, ⟨cc, r.2.2.2, r.2.2.1⟩)

/-- Embedding of the `try:` body of `backend.answer_query`: the initial rate
check (skipped for a falsy `user_email`) followed by `answerAfterCheck`. -/
noncomputable def answerBody (env : QEnv) (cfg : RateConfig) (st : St) (q a sec em : String) :
    Except (PyErr × St × Trace) (String × St × Trace) :=
  if em = "" then
    answerAfterCheck env st q a sec em 0
  else
    let r := checkRateLimit cfg st.userQueries em 100 env.now
    let st0 : St := ⟨st.chunksBySection, st.embsBySection, r.2⟩
    if r.1.1 then
      answerAfterCheck env st0 q a sec em 1
    else
      Except.ok (r.1.2 ++ rlSuffix, st0, ⟨1, 0, 0⟩)

/-- The outermost `try/except` of `answer_query` (backend.py lines 396 and
512-514): any escaping exception becomes the generic technical-error string. -/
def renderBody : Except (PyErr × St × Trace) (String × St × Trace) → String × St × Trace
  | Except.ok r => r
  | Except.error e => (techMsg, e.2.1, e.2.2)

/-- Embedding of `backend.answer_query` (backend.py lines 394-514). -/
noncomputable def answer_query (env : QEnv) (cfg : RateConfig) (st : St) (q a sec em : String) :
    String × St × Trace :=
  renderBody (answerBody env cfg st q a sec em)

/-- The fixed PDF path used by `modules/seven_eleven.py`. -/
def sePdfPath : String := "7eleven case 2015.pdf"

/-- Embedding of `seven_eleven.ensure_embeddings` (seven_eleven.py lines
19-42).  Unlike the backend version, the batch embedding call is wrapped in a
handler: on failure the embedding cache is set to the empty list while the
chunk cache keeps its freshly computed value. -/
def se_ensure_embeddings (env : QEnv) (st : SeSt) : SeSt × Option PyErr :=
  if st.chunks ≠ [] ∧ st.embs ≠ [] then
    (st, none)
  else if env.pdfExists sePdfPath = false then
    (⟨[], [], st.userQueries⟩, none)
  else
    match env.extract sePdfPath with
    | Except.error e => (st, some e)
    | Except.ok text =>
      let chunks := split_into_chunks text 300
      if chunks = [] then
        (⟨chunks, [], st.userQueries⟩, none)
      else
        match env.embedBatch chunks with
        | Except.ok vs => (⟨chunks, vs, st.userQueries⟩, none)
        | Except.error _ => (⟨chunks, [], st.userQueries⟩, none)

/-- Message of the 7-Eleven loop after three rate-limited attempts. -/
def seBusyMsg : String :=
  "OpenAI rate limit reached. Please try again in a few minutes."

/-- Message of the 7-Eleven loop after three failed OpenAI attempts. -/
def seConnMsg : String :=
  "Unable to process your question right now. Please try again later."

/-- The 7-Eleven system message of seven_eleven.py lines 150-159. -/
def seSystemContext : String :=
  "You are a supply chain course assistant specializing in distribution network design. Use the following context to give helpful hints for the assignment question, but do NOT solve it directly. Encourage the student to think and guide them to the right concepts or formulas. Provide data from your understanding if a student asks for it. If the student asks for a solution, only provide hints and steps, not the final answer.\n7-Eleven Japan Context: 16,000 stores, 158 DCs, Combined Delivery System (CDS), 3 deliveries/day, 10 stores/truck, ¥50,000 per truck/run, 3 temperature zones, 65% fresh food share, ~3 hour DC-store lead time. Compare with US operations and DSD alternatives."

/-- The retry loop of `seven_eleven.answer_query` (seven_eleven.py lines
161-206).  Here a non-OpenAI exception is also retried, and the final `break`
falls through to the generic fall-through message.  Reading
`response.usage.total_tokens` when `usage` is absent raises an
`AttributeError`, caught by the generic handler — hence the `usage` match in
the success arm when a user email is present. -/
def seCompletionHandle (em : String) (env : QEnv) (st : SeSt) (fuel : Nat)
    (retry : Unit → String × SeSt × Nat × Nat) :
    Except PyErr Completion → String × SeSt × Nat × Nat
  | Except.ok resp =>
    if em = "" then
      (pyStrip resp.content, st, 1, 0)
    else
      match resp.usage with
      | some u =>
        (pyStrip resp.content,
         ⟨st.chunks, st.embs, recordQuery st.userQueries em u env.now⟩, 1, 1)
      | none => if fuel = 0 then (exhaustMsg, st, 1, 0) else bumpCalls (retry ())
  | Except.error PyErr.rateLimit =>
    if fuel = 0 then (seBusyMsg, st, 1, 0) else bumpCalls (retry ())
  | Except.error PyErr.openai =>
    if fuel = 0 then (seConnMsg, st, 1, 0) else bumpCalls (retry ())
  | Except.error PyErr.other =>
    if fuel = 0 then (exhaustMsg, st, 1, 0) else bumpCalls (retry ())

def seCompletionLoop (env : QEnv) (sys usr em : String) :
    Nat → Nat → SeSt → String × SeSt × Nat × Nat
  | 0, _, st => (exhaustMsg, st, 0, 0)
  | fuel + 1, attempt, st =>
    seCompletionHandle em env st fuel
      (fun _ => seCompletionLoop env sys usr em fuel (attempt + 1) st)
      (env.completion sys usr attempt)

/-- Body of `seven_eleven.answer_query` after the rate check. -/
noncomputable def seAnswerAfterCheck (env : QEnv) (st : SeSt) (q a em : String) (cc : Nat) :
    Except (PyErr × SeSt × Trace) (String × SeSt × Trace) :=
  let er := se_ensure_embeddings env st
  match er.2 with
  | some e => Except.error (e, er.1, ⟨cc, 0, 0⟩)
  | none =>
    let st1 := er.1
    let fullQuery := if a = "" then q else q ++ "\nAssignment Question: " ++ a
    match env.embedQuery fullQuery with
    | Except.error PyErr.rateLimit => Except.ok (embedTroubleMsg, st1, ⟨cc, 0, 0⟩)
    | Except.error PyErr.openai => Except.ok (embedTroubleMsg, st1, ⟨cc, 0, 0⟩)
    | Except.error PyErr.other => Except.ok (techIssueMsg, st1, ⟨cc, 0, 0⟩)
    | Except.ok queryEmb =>
      let bestChunk := find_best_chunk queryEmb st1.embs st1.chunks
      let r := seCompletionLoop env seSystemContext (promptOf bestChunk a q) em 3 0 st1
      Except.ok (r.1, r.2.1, ⟨cc, r.2.2.2, r.2.2.1⟩)

/-- The `try:` body of `seven_eleven.answer_query`: rate check (the module
calls `base.check_rate_limit`, whose default `estimated_tokens` is 10000)
followed by the shared pipeline. -/
noncomputable def seAnswerBody (env : QEnv) (cfg : RateConfig) (st : SeSt) (q a em : String) :
    Except (PyErr × SeSt × Trace) (String × SeSt × Trace) :=
  if em = "" then
    seAnswerAfterCheck env st q a em 0
  else
    let r := checkRateLimit cfg st.userQueries em 10000 env.now
    let st0 : SeSt := ⟨st.chunks, st.embs, r.2⟩
    if r.1.1 then
      seAnswerAfterCheck env st0 q a em 1
    else
      Except.ok (r.1.2 ++ rlSuffix, st0, ⟨1, 0, 0⟩)

/-- The outermost handler of `seven_eleven.answer_query` (lines 208-210). -/
def seRenderBody : Except (PyErr × SeSt × Trace) (String × SeSt × Trace) → String × SeSt × Trace
  | Except.ok r => r
  | Except.error e => (techMsg, e.2.1, e.2.2)

/-- Embedding of `seven_eleven.answer_query` (seven_eleven.py lines 104-210). -/
noncomputable def se_answer_query (env : QEnv) (cfg : RateConfig) (st : SeSt) (q a em : String) :
    String × SeSt × Trace :=
  seRenderBody (seAnswerBody env cfg st q a em)

/-- Rendering of Python's `{value:.2f}` for a rational, used only inside the
human-readable validation messages; the exact float-formatting corner cases
are abstracted by rounding the scaled value down after adding one half. -/
def fmt2 (v : ℚ) : String :=
  let scaled : ℤ := Int.floor (v * 100 + 1 / 2)
  let intPart : ℤ := scaled / 100
  let frac : ℕ := (scaled % 100).natAbs
  toString intPart ++ "." ++ (if frac < 10 then "0" else "") ++ toString frac

/-- Embedding of `seven_eleven.validate_numeric_answer` (seven_eleven.py
lines 68-102), with Python floats modelled as rationals. -/
def validate_numeric_answer (task : String) (value : ℚ) : Bool × String :=
  if task = "2.1" then
    let expected : ℚ := 16000 / 158
    let tol : ℚ := 2
    if |value - expected| ≤ tol then
      (true, "Task 2.1 OK — your " ++ fmt2 value ++ " is within ±2 of the expected range.")
    else
      (false, "Hint: compute average stores per DC by dividing total stores by number of DCs (i.e. total stores ÷ DCs). Check your division and rounding.")
  else if task = "2.2_japan" then
    let expected : ℚ := 50000 / 10 * 3
    (decide (|value - expected| ≤ 500), "Japan cost: " ++ fmt2 value ++ " ¥/day")
  else if task = "2.2_us" then
    let expected : ℚ := 60000 / 8 * 1
    (decide (|value - expected| ≤ 500), "US cost: " ++ fmt2 value ++ " ¥/day")
  else if task = "2.2_difference" then
    let expected : ℚ := 7500
    if |value - expected| ≤ 500 then
      (true, "Task 2.2 OK — your values are within the acceptable tolerance.")
    else
      (false, "Hint: For each country compute (cost per truck ÷ stores per truck) × deliveries per store/day to get the per-store/day cost, then compare the two results. Check your arithmetic and units.")
  else
    (false, "Unknown task")

/-- Alignment invariant for one section of the backend caches: the chunk list
and the embedding list the retrieval step would see are either both non-empty
with equal length or both empty. -/
abbrev sectionAligned (st : St) (sec : String) : Prop :=
  (chunksOf st sec ≠ [] ∧ embsOf st sec ≠ [] ∧
    (chunksOf st sec).length = (embsOf st sec).length) ∨
  (chunksOf st sec = [] ∧ embsOf st sec = [])

/-- Run a sequence of `ensure_embeddings` calls, keeping the state each call
leaves behind (also when it raised, as Python's module state survives). -/
def runEnsures (env : QEnv) (st : St) (secs : List String) : St :=
  secs.foldl (fun s sec => (ensure_embeddings env s sec).1) st

/-- The §6 interface contract of the embedding service on the success path:
one vector per input string.  Used as the hypothesis under which the
alignment invariant is preserved. -/
def EmbedBatchOk (env : QEnv) : Prop :=
  ∀ cs, ∃ vs, env.embedBatch cs = Except.ok vs ∧ vs.length = cs.length

/-- Classification of `answer_query` results: every outcome is either a
canned user-facing message, a rate-limit rejection sentence, or the trimmed
content of a successful completion response. -/
def userDisplayable (cfg : RateConfig) (env : QEnv) (r : String) : Prop :=
  r = hourlyMsg cfg ++ rlSuffix ∨ r = tokenMsg cfg ++ rlSuffix ∨
  r = techMsg ∨ r = embedTroubleMsg ∨ r = techIssueMsg ∨
  r = busyMsg ∨ r = connMsg ∨ r = unexpectedMsg ∨ r = exhaustMsg ∨
  ∃ sys usr k resp, env.completion sys usr k = Except.ok resp ∧ r = pyStrip resp.content

/-- Test configuration: the backend defaults (50 queries/h, 10000 tokens/d). -/
def cfg0 : RateConfig := ⟨50, 10000⟩

/-- Empty initial backend state (cold caches, empty ledger). -/
def st0 : St := ⟨[], [], []⟩

/-- Empty initial seven-eleven state. -/
def seSt0 : SeSt := ⟨[], [], []⟩

/-- Environment whose completion service fails with a generic OpenAI error on
attempts 0 and 1 and succeeds on attempt 2; no PDF is present. -/
def env4 : QEnv :=
  ⟨0, fun _ => false, fun _ => Except.error PyErr.other, fun _ => Except.error PyErr.other,
   fun _ => Except.ok [1],
   fun _ _ k => if k ≤ 1 then Except.error PyErr.openai else Except.ok ⟨"Hello  ", some 5⟩⟩

/-- Environment whose completion service always reports a rate limit. -/
def env4w : QEnv :=
  ⟨0, fun _ => false, fun _ => Except.error PyErr.other, fun _ => Except.error PyErr.other,
   fun _ => Except.ok [1], fun _ _ _ => Except.error PyErr.rateLimit⟩

/-- A 60-character single-paragraph document text. -/
def text5 : String :=
  "aaaaaaaaaaaaaaaaaaaaaaaaaaaaaaaaaaaaaaaaaaaaaaaaaaaaaaaaaaaa"

/-- Environment with a present, extractable PDF whose batch embedding call
fails, while the completion service would succeed. -/
def env5 : QEnv :=
  ⟨0, fun _ => true, fun _ => Except.ok text5, fun _ => Except.error PyErr.openai,
   fun _ => Except.ok [1], fun _ _ _ => Except.ok ⟨"Hi", some 5⟩⟩

/-- Environment whose PDF text extraction itself raises. -/
def env5w1 : QEnv :=
  ⟨0, fun _ => true, fun _ => Except.error PyErr.other, fun _ => Except.error PyErr.other,
   fun _ => Except.ok [1], fun _ _ _ => Except.ok ⟨"Hi", some 5⟩⟩

/-- Environment with a present PDF that extracts to the empty text, a failing
batch embedding service, and a succeeding completion service. -/
def env5w2 : QEnv :=
  ⟨0, fun _ => true, fun _ => Except.ok "", fun _ => Except.error PyErr.openai,
   fun _ => Except.ok [1], fun _ _ _ => Except.ok ⟨"Great hint ", some 2⟩⟩

/-- Environment with no PDFs and a well-behaved embedding service returning
one vector per input. -/
def env8 : QEnv :=
  ⟨0, fun _ => false, fun _ => Except.error PyErr.other,
   fun cs => Except.ok (cs.map (fun _ => [1])),
   fun _ => Except.ok [1], fun _ _ _ => Except.ok ⟨"Hi", some 1⟩⟩

/-- A ledger with one user holding a single fresh 9900-token entry. -/
def m3 : QueryMap := [("a@x.edu", [(0, 9900)])]

/-- A 310-character single-paragraph text (above the chunking threshold). -/
def paraA : String :=
  "aaaaaaaaaaaaaaaaaaaaaaaaaaaaaaaaaaaaaaaaaaaaaaaaaaaaaaaaaaaaaaaaaaaaaaaaaaaaaaaaaaaaaaaaaaaaaaaaaaaaaaaaaaaaaaaaaaaaaaaaaaaaaaaaaaaaaaaaaaaaaaaaaaaaaaaaaaaaaaaaaaaaaaaaaaaaaaaaaaaaaaaaaaaaaaaaaaaaaaaaaaaaaaaaaaaaaaaaaaaaaaaaaaaaaaaaaaaaaaaaaaaaaaaaaaaaaaaaaaaaaaaaaaaaaaaaaaaaaaaaaaaaaaaaaaaaaaaaaaaaaaaaaaaaaa"

/-! ### Helper lemmas -/

theorem alookup_ainsert_self {α : Type} (m : List (String × α)) (k : String) (v : α) :
    alookup (ainsert m k v) k = some v := by
  induction m with
  | nil => simp [ainsert, alookup]
  | cons h t ih =>
    obtain ⟨k', v'⟩ := h
    by_cases hk : k' = k
    · simp [ainsert, alookup, hk]
    · simp [ainsert, alookup, hk, ih]

theorem alookup_ainsert_ne {α : Type} (m : List (String × α)) (k k' : String) (v : α)
    (h : k' ≠ k) : alookup (ainsert m k v) k' = alookup m k' := by
  induction m with
  | nil =>
    simp only [ainsert, alookup]
    rw [if_neg (Ne.symm h)]
  | cons hd t ih =>
    obtain ⟨k'', v''⟩ := hd
    by_cases hk : k'' = k
    · subst hk
      simp only [ainsert, if_pos rfl, alookup]
      rw [if_neg (Ne.symm h), if_neg (Ne.symm h)]
    · simp only [ainsert, if_neg hk, alookup]
      by_cases hk2 : k'' = k'
      · rw [if_pos hk2, if_pos hk2]
      · rw [if_neg hk2, if_neg hk2]
        exact ih

theorem filter_hour_day (now : Int) (l : List (Int × Nat)) :
    (l.filter (fun e => now - 86400 < e.1)).filter (fun e => now - 3600 < e.1) =
      l.filter (fun e => now - 3600 < e.1) := by
  induction l with
  | nil => rfl
  | cons a t ih =>
    by_cases h1 : now - 3600 < a.1
    · have h2 : now - 86400 < a.1 := by omega
      simp [List.filter_cons, h1, h2, ih]
    · by_cases h2 : now - 86400 < a.1 <;> simp [List.filter_cons, h1, h2, ih]

theorem filter_day_idem (now : Int) (l : List (Int × Nat)) :
    (l.filter (fun e => now - 86400 < e.1)).filter (fun e => now - 86400 < e.1) =
      l.filter (fun e => now - 86400 < e.1) := by
  induction l with
  | nil => rfl
  | cons a t ih =>
    by_cases h : now - 86400 < a.1 <;> simp [List.filter_cons, h, ih]

theorem append_head_eq (s t : String) (c : Char) (h : s.data.head? = some c) :
    (s ++ t).data.head? = some c := by
  rw [String.data_append]
  cases hd : s.data with
  | nil => rw [hd] at h; simp at h
  | cons x xs =>
    rw [hd] at h
    simp at h
    simp [hd, h]

theorem hourly_ne_token (cfg cfg' : RateConfig) : hourlyMsg cfg ≠ tokenMsg cfg' := by
  intro h
  have h1 : (hourlyMsg cfg).data.head? = some 'R' := by
    unfold hourlyMsg
    rw [String.append_assoc]
    exact append_head_eq _ _ _ (by decide)
  have h2 : (tokenMsg cfg').data.head? = some 'T' := by
    unfold tokenMsg
    rw [String.append_assoc]
    exact append_head_eq _ _ _ (by decide)
  rw [h, h2] at h1
  simp at h1

/-! ### C2: hourly rate limit boundary -/

/-- C2: `check_rate_limit` rejects with the hourly rate-limit reason exactly
when the number of recorded entries within the trailing 1-hour window has
reached `max_queries_per_hour`.  In particular a user with exactly N =
`max_queries_per_hour` entries in that window is rejected, a user with N-1 or
fewer is not rejected on the hourly ground, and entries older than one hour
(timestamp not above `now - 3600`) no longer count against the user. -/
theorem check_rate_limit_hourly_boundary (cfg : RateConfig) (m : QueryMap) (email : String)
    (est : Nat) (now : Int) :
    (checkRateLimit cfg m email est now).1 = (false, hourlyMsg cfg) ↔
      cfg.maxQueriesPerHour ≤
        (((alookup m email).getD []).filter (fun e => now - 3600 < e.1)).length := by
  unfold checkRateLimit
  simp only [filter_hour_day]
  by_cases h : cfg.maxQueriesPerHour ≤
      (((alookup m email).getD []).filter (fun e => now - 3600 < e.1)).length
  · simp [h]
  · simp only [if_neg h]
    constructor
    · intro hres
      split at hres
      · exact absurd (congrArg Prod.snd hres) (hourly_ne_token cfg cfg).symm
      · exact absurd (congrArg Prod.fst hres) (by simp)
    · intro hh
      exact absurd hh h

/-! ### C3: daily token budget boundary -/

/-- C3: assuming the hourly query limit is not hit, `check_rate_limit` allows
the request whenever the token sum over the trailing 24-hour window plus the
estimate is at most `max_tokens_per_day` (in particular when it equals it
exactly), and rejects with the token-limit reason whenever that sum exceeds
`max_tokens_per_day` by one or more tokens. -/
theorem check_rate_limit_token_boundary (cfg : RateConfig) (m : QueryMap) (email : String)
    (est : Nat) (now : Int)
    (hh : (((alookup m email).getD []).filter (fun e => now - 3600 < e.1)).length <
      cfg.maxQueriesPerHour) :
    (((((alookup m email).getD []).filter (fun e => now - 86400 < e.1)).map
        (fun e => e.2)).sum + est ≤ cfg.maxTokensPerDay →
      (checkRateLimit cfg m email est now).1 = (true, "OK")) ∧
    (cfg.maxTokensPerDay <
        ((((alookup m email).getD []).filter (fun e => now - 86400 < e.1)).map
          (fun e => e.2)).sum + est →
      (checkRateLimit cfg m email est now).1 = (false, tokenMsg cfg)) := by
  unfold checkRateLimit
  simp only [filter_hour_day, filter_day_idem]
  have h1 : ¬ cfg.maxQueriesPerHour ≤
      (((alookup m email).getD []).filter (fun e => now - 3600 < e.1)).length := by omega
  simp only [if_neg h1]
  constructor
  · intro hle
    rw [if_neg (by omega)]
  · intro hlt
    rw [if_pos hlt]

/-- Witness for C3: a user whose ledger holds 9900 fresh tokens, with an
estimate of 100, sits exactly at the 10000-token daily budget and is allowed. -/
theorem check_rate_limit_token_boundary_witness :
    (checkRateLimit cfg0 m3 "a@x.edu" 100 1000).1 = (true, "OK") :=
  (check_rate_limit_token_boundary cfg0 m3 "a@x.edu" 100 1000 (by decide)).1 (by decide)

/-! ### C7: chunk size floor and unsplit long paragraphs -/

/-- C7: every chunk returned by `split_into_chunks` has length at least 50
(the source keeps only chunks of length strictly greater than 50), and every
paragraph of the input whose length is at or above the 300-character
threshold appears as a single unsplit chunk. -/
theorem split_into_chunks_size_floor (text : String) :
    (∀ c, c ∈ split_into_chunks text 300 → 50 ≤ c.length) ∧
    (∀ p, p ∈ splitParagraphs text → 300 ≤ p.length → p ∈ split_into_chunks text 300) := by
  constructor
  · intro c hc
    have := (List.mem_filter.mp hc).2
    simp only [decide_eq_true_eq] at this
    omega
  · intro p hp hlen
    unfold split_into_chunks
    refine List.mem_filter.mpr ⟨?_, ?_⟩
    · refine List.mem_flatMap.mpr ⟨p, hp, ?_⟩
      unfold chunkPara
      rw [if_neg (by omega)]
      exact List.mem_singleton.mpr rfl
    · simp only [decide_eq_true_eq]
      omega

/-- Witness for C7: a 310-character paragraph is itself a paragraph of the
text consisting of it alone, is kept unsplit as a chunk, and that chunk
satisfies the 50-character floor. -/
theorem split_into_chunks_size_floor_witness :
    paraA ∈ split_into_chunks paraA 300 ∧ 50 ≤ paraA.length :=
  ⟨(split_into_chunks_size_floor paraA).2 paraA (by decide) (by decide),
   (split_into_chunks_size_floor paraA).1 paraA
     ((split_into_chunks_size_floor paraA).2 paraA (by decide) (by decide))⟩

/-! ### C9: numeric answer validation -/

/-- C9: `validate_numeric_answer` is a pure function over the static
tolerance tables: task "2.1" passes exactly when the value is within 2 of
16000/158, task "2.2_difference" passes exactly when the value is within 500
of 7500, and any unrecognized task id yields `(false, "Unknown task")`
without raising. -/
theorem validate_numeric_answer_spec (v : ℚ) (t : String)
    (h1 : t ≠ "2.1") (h2 : t ≠ "2.2_japan") (h3 : t ≠ "2.2_us")
    (h4 : t ≠ "2.2_difference") :
    ((validate_numeric_answer "2.1" v).1 = true ↔ |v - 16000 / 158| ≤ 2) ∧
    ((validate_numeric_answer "2.2_difference" v).1 = true ↔ |v - 7500| ≤ 500) ∧
    validate_numeric_answer t v = (false, "Unknown task") := by
  refine ⟨?_, ?_, ?_⟩
  · unfold validate_numeric_answer
    rw [if_pos rfl]
    by_cases h : |v - 16000 / 158| ≤ 2
    · simp [h]
    · simp [h]
  · unfold validate_numeric_answer
    rw [if_neg (by decide), if_neg (by decide), if_neg (by decide), if_pos rfl]
    by_cases h : |v - 7500| ≤ 500
    · simp [h]
    · simp [h]
  · unfold validate_numeric_answer
    rw [if_neg h1, if_neg h2, if_neg h3, if_neg h4]

/-- Witness for C9: instantiation at value 101 and the unknown task "zz". -/
theorem validate_numeric_answer_spec_witness :
    ((validate_numeric_answer "2.1" 101).1 = true ↔ |(101 : ℚ) - 16000 / 158| ≤ 2) ∧
    ((validate_numeric_answer "2.2_difference" 101).1 = true ↔ |(101 : ℚ) - 7500| ≤ 500) ∧
    validate_numeric_answer "zz" 101 = (false, "Unknown task") :=
  validate_numeric_answer_spec 101 "zz" (by decide) (by decide) (by decide) (by decide)

/-! ### C10: empty user email bypasses rate limiting -/

theorem completionLoop_succ (env : QEnv) (sys usr em : String) (fuel attempt : Nat)
    (st : St) :
    completionLoop env sys usr em (fuel + 1) attempt st =
      completionHandle em env st fuel
        (fun _ => completionLoop env sys usr em fuel (attempt + 1) st)
        (env.completion sys usr attempt) := rfl

theorem seCompletionLoop_succ (env : QEnv) (sys usr em : String) (fuel attempt : Nat)
    (st : SeSt) :
    seCompletionLoop env sys usr em (fuel + 1) attempt st =
      seCompletionHandle em env st fuel
        (fun _ => seCompletionLoop env sys usr em fuel (attempt + 1) st)
        (env.completion sys usr attempt) := rfl

theorem ensure_userQueries (env : QEnv) (st : St) (sec : String) :
    (ensure_embeddings env st sec).1.userQueries = st.userQueries := by
  simp only [ensure_embeddings]
  split
  · rfl
  · split
    · rfl
    · split
      · rfl
      · split
        · rfl
        · split
          · rfl
          · split <;> rfl

theorem completionLoop_empty_email (env : QEnv) (sys usr : String) :
    ∀ fuel attempt st, (completionLoop env sys usr "" fuel attempt st).2.1 = st ∧
      (completionLoop env sys usr "" fuel attempt st).2.2.2 = 0 := by
  intro fuel
  induction fuel with
  | zero => intro attempt st; exact ⟨rfl, rfl⟩
  | succ f ih =>
    intro attempt st
    rw [completionLoop_succ]
    cases h : env.completion sys usr attempt with
    | ok resp => simp [h, completionHandle]
    | error e =>
      cases e with
      | rateLimit =>
        cases f with
        | zero => simp [h, completionHandle]
        | succ f' =>
          simp only [h, completionHandle, if_neg (Nat.succ_ne_zero f'), bumpCalls]
          exact ⟨(ih (attempt + 1) st).1, (ih (attempt + 1) st).2⟩
      | openai =>
        cases f with
        | zero => simp [h, completionHandle]
        | succ f' =>
          simp only [h, completionHandle, if_neg (Nat.succ_ne_zero f'), bumpCalls]
          exact ⟨(ih (attempt + 1) st).1, (ih (attempt + 1) st).2⟩
      | other => simp [h, completionHandle]

/-- C10: calling `answer_query` with an empty `user_email` bypasses rate
limiting entirely: `check_rate_limit` is never consulted, `record_query` is
never invoked, and the rate-limiting ledger is left unchanged. -/
theorem empty_email_bypasses_rate_limiting (env : QEnv) (cfg : RateConfig) (st : St)
    (q a sec : String) :
    (answer_query env cfg st q a sec "").2.2.checkCalls = 0 ∧
    (answer_query env cfg st q a sec "").2.2.recordCalls = 0 ∧
    (answer_query env cfg st q a sec "").2.1.userQueries = st.userQueries := by
  unfold answer_query answerBody
  rw [if_pos rfl]
  unfold answerAfterCheck
  cases h : (ensure_embeddings env st sec).2 with
  | some e => simp [renderBody, h, ensure_userQueries]
  | none =>
    simp only [h]
    cases hq : env.embedQuery (if a = "" then q else q ++ "\nAssignment Question: " ++ a) with
    | error e => cases e <;> simp [renderBody, hq, ensure_userQueries]
    | ok v =>
      simp only [hq]
      have hl := completionLoop_empty_email env (systemContext sec)
        (promptOf (find_best_chunk v (embsOf (ensure_embeddings env st sec).1 sec)
          (chunksOf (ensure_embeddings env st sec).1 sec)) a q)
        3 0 (ensure_embeddings env st sec).1
      simp [renderBody, hl.1, hl.2, ensure_userQueries]

/-! ### C1: answer_query always returns a user-displayable string -/

theorem checkRateLimit_fst_cases (cfg : RateConfig) (m : QueryMap) (email : String)
    (est : Nat) (now : Int) :
    (checkRateLimit cfg m email est now).1 = (true, "OK") ∨
    (checkRateLimit cfg m email est now).1 = (false, hourlyMsg cfg) ∨
    (checkRateLimit cfg m email est now).1 = (false, tokenMsg cfg) := by
  simp only [checkRateLimit]
  split
  · right; left; rfl
  · split
    · right; right; rfl
    · left; rfl

theorem completionLoop_displayable (env : QEnv) (sys usr em : String) :
    ∀ fuel attempt st,
      (completionLoop env sys usr em fuel attempt st).1 = busyMsg ∨
      (completionLoop env sys usr em fuel attempt st).1 = connMsg ∨
      (completionLoop env sys usr em fuel attempt st).1 = unexpectedMsg ∨
      (completionLoop env sys usr em fuel attempt st).1 = exhaustMsg ∨
      ∃ k resp, env.completion sys usr k = Except.ok resp ∧
        (completionLoop env sys usr em fuel attempt st).1 = pyStrip resp.content := by
  intro fuel
  induction fuel with
  | zero =>
    intro attempt st
    right; right; right; left; rfl
  | succ f ih =>
    intro attempt st
    rw [completionLoop_succ]
    cases h : env.completion sys usr attempt with
    | ok resp =>
      right; right; right; right
      refine ⟨attempt, resp, h, ?_⟩
      by_cases hem : em = "" <;> simp [completionHandle, hem]
    | error e =>
      cases e with
      | rateLimit =>
        by_cases hf : f = 0
        · subst hf; left; simp [completionHandle]
        · simp only [completionHandle, if_neg hf, bumpCalls]
          exact ih (attempt + 1) st
      | openai =>
        by_cases hf : f = 0
        · subst hf; right; left; simp [completionHandle]
        · simp only [completionHandle, if_neg hf, bumpCalls]
          exact ih (attempt + 1) st
      | other =>
        right; right; left
        simp [completionHandle]

theorem renderBody_afterCheck_displayable (env : QEnv) (cfg : RateConfig) (st : St)
    (q a sec em : String) (cc : Nat) :
    userDisplayable cfg env (renderBody (answerAfterCheck env st q a sec em cc)).1 := by
  unfold answerAfterCheck
  cases h : (ensure_embeddings env st sec).2 with
  | some e =>
    simp only [h, renderBody]
    exact Or.inr (Or.inr (Or.inl rfl))
  | none =>
    simp only [h]
    cases hq : env.embedQuery (if a = "" then q else q ++ "\nAssignment Question: " ++ a) with
    | error e =>
      cases e with
      | rateLimit =>
        simp only [hq, renderBody]
        exact Or.inr (Or.inr (Or.inr (Or.inl rfl)))
      | openai =>
        simp only [hq, renderBody]
        exact Or.inr (Or.inr (Or.inr (Or.inl rfl)))
      | other =>
        simp only [hq, renderBody]
        exact Or.inr (Or.inr (Or.inr (Or.inr (Or.inl rfl))))
    | ok v =>
      simp only [hq, renderBody]
      rcases completionLoop_displayable env (systemContext sec)
          (promptOf (find_best_chunk v (embsOf (ensure_embeddings env st sec).1 sec)
            (chunksOf (ensure_embeddings env st sec).1 sec)) a q)
          em 3 0 (ensure_embeddings env st sec).1 with
        hl | hl | hl | hl | ⟨k, resp, hok, hl⟩
      · exact Or.inr (Or.inr (Or.inr (Or.inr (Or.inr (Or.inl hl)))))
      · exact Or.inr (Or.inr (Or.inr (Or.inr (Or.inr (Or.inr (Or.inl hl))))))
      · exact Or.inr (Or.inr (Or.inr (Or.inr (Or.inr (Or.inr (Or.inr (Or.inl hl)))))))
      · exact Or.inr (Or.inr (Or.inr (Or.inr (Or.inr (Or.inr (Or.inr (Or.inr (Or.inl hl))))))))
      · exact Or.inr (Or.inr (Or.inr (Or.inr (Or.inr (Or.inr (Or.inr (Or.inr (Or.inr
          ⟨_, _, k, resp, hok, hl⟩))))))))

/-- C1: for every environment outcome of the external embedding and
completion services (success, rate-limit failure, generic failure) and every
input, `answer_query` returns a user-displayable string: either the verbatim
trimmed completion content, a canned user-facing message, or a rate-limit
rejection sentence.  A modelled exception (`Except.error`) never escapes
`answer_query`: its outermost handler converts it to `techMsg`. -/
theorem answer_query_always_displayable (env : QEnv) (cfg : RateConfig) (st : St)
    (q a sec em : String) :
    userDisplayable cfg env (answer_query env cfg st q a sec em).1 := by
  unfold answer_query answerBody
  by_cases hem : em = ""
  · rw [if_pos hem]
    exact renderBody_afterCheck_displayable env cfg st q a sec em 0
  · rw [if_neg hem]
    rcases checkRateLimit_fst_cases cfg st.userQueries em 100 env.now with hr | hr | hr
    · simp only [hr]
      exact renderBody_afterCheck_displayable env cfg
        ⟨st.chunksBySection, st.embsBySection, (checkRateLimit cfg st.userQueries em 100 env.now).2⟩
        q a sec em 1
    · simp only [hr, renderBody]
      exact Or.inl rfl
    · simp only [hr, renderBody]
      exact Or.inr (Or.inl rfl)

/-! ### C6: retrieval selects the most similar chunk -/

theorem foldl_max_init_le (xs : List ℝ) (init : ℝ) : init ≤ xs.foldl max init := by
  induction xs generalizing init with
  | nil => exact le_refl init
  | cons x t ih => exact le_trans (le_max_left init x) (ih (max init x))

theorem foldl_max_ge_mem (xs : List ℝ) (init x : ℝ) (h : x ∈ xs) :
    x ≤ xs.foldl max init := by
  induction xs generalizing init with
  | nil => cases h
  | cons y t ih =>
    rcases List.mem_cons.mp h with rfl | hmem
    · exact le_trans (le_max_right init x) (foldl_max_init_le t (max init x))
    · exact ih (max init y) hmem

theorem foldl_max_mem (xs : List ℝ) (init : ℝ) : xs.foldl max init ∈ init :: xs := by
  induction xs generalizing init with
  | nil => exact List.mem_singleton.mpr rfl
  | cons x t ih =>
    rcases List.mem_cons.mp (ih (max init x)) with hh | hh
    · rcases max_choice init x with hm | hm
      · exact List.mem_cons.mpr (Or.inl (hh.trans hm))
      · exact List.mem_cons.mpr (Or.inr (List.mem_cons.mpr (Or.inl (hh.trans hm))))
    · exact List.mem_cons.mpr (Or.inr (List.mem_cons.mpr (Or.inr hh)))

theorem listMax_mem (xs : List ℝ) (h : xs ≠ []) : listMax xs ∈ xs := by
  cases xs with
  | nil => exact absurd rfl h
  | cons x t => exact foldl_max_mem t x

theorem le_listMax (xs : List ℝ) (x : ℝ) (h : x ∈ xs) : x ≤ listMax xs := by
  cases xs with
  | nil => cases h
  | cons y t =>
    rcases List.mem_cons.mp h with rfl | hmem
    · exact foldl_max_init_le t x
    · exact foldl_max_ge_mem t y x hmem

theorem pyIndex_lt (xs : List ℝ) (v : ℝ) (h : v ∈ xs) : pyIndex xs v < xs.length := by
  induction xs with
  | nil => cases h
  | cons x t ih =>
    by_cases hx : x = v
    · simp [pyIndex, hx]
    · have hmem : v ∈ t := by
        rcases List.mem_cons.mp h with rfl | hmem
        · exact absurd rfl hx
        · exact hmem
      simp only [pyIndex, if_neg hx, List.length_cons]
      have := ih hmem
      omega

theorem pyIndex_getD (xs : List ℝ) (v : ℝ) (h : v ∈ xs) :
    xs.getD (pyIndex xs v) 0 = v := by
  induction xs with
  | nil => cases h
  | cons x t ih =>
    by_cases hx : x = v
    · simp [pyIndex, hx]
    · have hmem : v ∈ t := by
        rcases List.mem_cons.mp h with rfl | hmem
        · exact absurd rfl hx
        · exact hmem
      simp only [pyIndex, if_neg hx, List.getD_cons_succ]
      exact ih hmem

theorem pyIndex_before_ne (xs : List ℝ) (v : ℝ) (k : Nat) (hk : k < pyIndex xs v) :
    xs.getD k 0 ≠ v := by
  induction xs generalizing k with
  | nil => simp [pyIndex] at hk
  | cons x t ih =>
    by_cases hx : x = v
    · simp [pyIndex, hx] at hk
    · cases k with
      | zero => simpa using hx
      | succ k' =>
        simp only [pyIndex, if_neg hx] at hk
        simp only [List.getD_cons_succ]
        exact ih k' (by omega)

/-- C6: for a non-empty section index (with at least as many chunks as
embeddings, the cached invariant shape), retrieval returns the chunk at the
first index attaining the maximum cosine similarity to the query vector —
every similarity is at most the selected one, and every earlier similarity is
strictly below it — and for a section with zero stored embeddings,
`find_best_chunk` returns the empty string without raising. -/
theorem find_best_chunk_spec (q : Vec) (embs : List Vec) (chunks : List String)
    (hne : embs ≠ []) (hlen : embs.length ≤ chunks.length) :
    (find_best_chunk q [] chunks = "") ∧
    (let sims := embs.map (cosine_similarity q)
     ∃ j, j < sims.length ∧ find_best_chunk q embs chunks = chunks.getD j "" ∧
       (∀ k, k < sims.length → sims.getD k 0 ≤ sims.getD j 0) ∧
       (∀ k, k < j → sims.getD k 0 < sims.getD j 0)) := by
  constructor
  · cases chunks <;> rfl
  · cases embs with
    | nil => exact absurd rfl hne
    | cons e es =>
      cases chunks with
      | nil => simp at hlen
      | cons c cs =>
        have hsne : (e :: es).map (cosine_similarity q) ≠ [] := by simp
        have hmax := listMax_mem ((e :: es).map (cosine_similarity q)) hsne
        refine ⟨pyIndex ((e :: es).map (cosine_similarity q))
          (listMax ((e :: es).map (cosine_similarity q))), ?_, ?_, ?_, ?_⟩
        · exact pyIndex_lt _ _ hmax
        · rfl
        · intro k hk
          rw [pyIndex_getD _ _ hmax]
          rw [List.getD_eq_getElem _ _ hk]
          exact le_listMax _ _ (List.getElem_mem hk)
        · intro k hk
          rw [pyIndex_getD _ _ hmax]
          have hkl : k < ((e :: es).map (cosine_similarity q)).length :=
            lt_trans hk (pyIndex_lt _ _ hmax)
          have hle : ((e :: es).map (cosine_similarity q)).getD k 0 ≤
              listMax ((e :: es).map (cosine_similarity q)) := by
            rw [List.getD_eq_getElem _ _ hkl]
            exact le_listMax _ _ (List.getElem_mem hkl)
          exact lt_of_le_of_ne hle (pyIndex_before_ne _ _ k hk)

/-- Witness for C6: a two-chunk index whose first embedding matches the query
exactly. -/
theorem find_best_chunk_spec_witness :
    (find_best_chunk [1] [] ["A", "B"] = "") ∧
    (let sims := ([[1], [0]] : List Vec).map (cosine_similarity [1])
     ∃ j, j < sims.length ∧ find_best_chunk [1] [[1], [0]] ["A", "B"] = ["A", "B"].getD j "" ∧
       (∀ k, k < sims.length → sims.getD k 0 ≤ sims.getD j 0) ∧
       (∀ k, k < j → sims.getD k 0 < sims.getD j 0)) :=
  find_best_chunk_spec [1] [[1], [0]] ["A", "B"] (by decide) (by decide)

/-! ### C8: chunk/embedding cache alignment -/

theorem aligned_insert_both (st : St) (h : ∀ s, sectionAligned st s) (sec : String)
    (cs : List String) (vs : List Vec)
    (hrel : (cs ≠ [] ∧ vs ≠ [] ∧ cs.length = vs.length) ∨ (cs = [] ∧ vs = [])) :
    ∀ s, sectionAligned
      ⟨ainsert st.chunksBySection sec cs, ainsert st.embsBySection sec vs, st.userQueries⟩ s := by
  intro s
  by_cases hs : s = sec
  · subst hs
    simp only [sectionAligned, chunksOf, embsOf, alookup_ainsert_self, Option.getD_some]
    exact hrel
  · simp only [sectionAligned, chunksOf, embsOf, alookup_ainsert_ne _ _ _ _ hs]
    exact h s

theorem ensure_preserves_aligned (env : QEnv) (hE : EmbedBatchOk env) (st : St)
    (h : ∀ s, sectionAligned st s) (sec : String) :
    ∀ s, sectionAligned (ensure_embeddings env st sec).1 s := by
  simp only [ensure_embeddings]
  split
  · exact h
  · split
    · exact aligned_insert_both st h sec [] [] (Or.inr ⟨rfl, rfl⟩)
    · split
      · exact aligned_insert_both st h sec [] [] (Or.inr ⟨rfl, rfl⟩)
      · split
        · exact h
        · rename_i text heqx
          by_cases hchunks : split_into_chunks text 300 = []
          · rw [if_pos hchunks, hchunks]
            exact aligned_insert_both st h sec [] [] (Or.inr ⟨rfl, rfl⟩)
          · rw [if_neg hchunks]
            obtain ⟨vs, hvs, hlen⟩ := hE (split_into_chunks text 300)
            rw [hvs]
            have hvne : vs ≠ [] := by
              intro hnil
              apply hchunks
              apply List.length_eq_zero.mp
              rw [← hlen, hnil]
              rfl
            exact aligned_insert_both st h sec _ vs (Or.inl ⟨hchunks, hvne, hlen.symm⟩)

theorem runEnsures_cons (env : QEnv) (st : St) (sec : String) (rest : List String) :
    runEnsures env st (sec :: rest) = runEnsures env (ensure_embeddings env st sec).1 rest := rfl

/-- C8 (amended): after any sequence of `ensure_embeddings` calls, with any
outcomes of chunk extraction, every section's cached state keeps the
alignment invariant — both lists populated with the same length or both
empty — provided every batch embedding-service call that occurs succeeds and
returns one vector per chunk.  (A failing embedding call breaks the
invariant, see the counterexample.) -/
theorem ensure_embeddings_alignment (env : QEnv) (hE : EmbedBatchOk env) (st : St)
    (h : ∀ s, sectionAligned st s) (secs : List String) :
    ∀ s, sectionAligned (runEnsures env st secs) s := by
  induction secs generalizing st with
  | nil => exact h
  | cons sec rest ih =>
    rw [runEnsures_cons]
    exact ih _ (ensure_preserves_aligned env hE st h sec)

/-- Witness for C8: running two sections from the empty state under a
well-behaved embedding service leaves the "Ch.3" section aligned. -/
theorem ensure_embeddings_alignment_witness :
    sectionAligned (runEnsures env8 st0 ["Ch.3", "7-Eleven Case 2015"]) "Ch.3" :=
  ensure_embeddings_alignment env8
    (fun cs => ⟨cs.map (fun _ => [1]), rfl, by simp⟩) st0
    (fun _ => Or.inr ⟨rfl, rfl⟩) ["Ch.3", "7-Eleven Case 2015"] "Ch.3"

/-- Counterexample for C8 as stated: with a present document and a failing
batch embedding call, a single `ensure_embeddings` run leaves the section
with a non-empty chunk list and no embedding list — the invariant is
violated for this outcome of the embedding call. -/
theorem alignment_counterexample :
    ¬ sectionAligned (runEnsures env5 st0 ["Ch.3"]) "Ch.3" := by decide

/-! ### C4: retry behavior of the completion-call step -/

theorem completionLoop_retry_step (env : QEnv) (sys usr em : String) (fuel attempt : Nat)
    (st : St) (e : PyErr) (he : e = PyErr.rateLimit ∨ e = PyErr.openai)
    (h : env.completion sys usr attempt = Except.error e) :
    completionLoop env sys usr em (fuel + 2) attempt st =
      bumpCalls (completionLoop env sys usr em (fuel + 1) (attempt + 1) st) := by
  rw [show fuel + 2 = (fuel + 1) + 1 from rfl, completionLoop_succ, h]
  rcases he with rfl | rfl <;> simp [completionHandle]

theorem completionLoop_giveup_rl (env : QEnv) (sys usr em : String) (attempt : Nat) (st : St)
    (h : env.completion sys usr attempt = Except.error PyErr.rateLimit) :
    completionLoop env sys usr em 1 attempt st = (busyMsg, st, 1, 0) := by
  rw [show (1 : Nat) = 0 + 1 from rfl, completionLoop_succ, h]
  simp [completionHandle]

theorem completionLoop_giveup_oa (env : QEnv) (sys usr em : String) (attempt : Nat) (st : St)
    (h : env.completion sys usr attempt = Except.error PyErr.openai) :
    completionLoop env sys usr em 1 attempt st = (connMsg, st, 1, 0) := by
  rw [show (1 : Nat) = 0 + 1 from rfl, completionLoop_succ, h]
  simp [completionHandle]

theorem completionLoop_ok_empty (env : QEnv) (sys usr : String) (fuel attempt : Nat)
    (st : St) (resp : Completion)
    (h : env.completion sys usr attempt = Except.ok resp) :
    completionLoop env sys usr "" (fuel + 1) attempt st = (pyStrip resp.content, st, 1, 0) := by
  rw [completionLoop_succ, h]
  simp [completionHandle]

theorem completionLoop_other_noretry (env : QEnv) (sys usr em : String) (fuel attempt : Nat)
    (st : St) (h : env.completion sys usr attempt = Except.error PyErr.other) :
    completionLoop env sys usr em (fuel + 1) attempt st = (unexpectedMsg, st, 1, 0) := by
  rw [completionLoop_succ, h]
  simp [completionHandle]

theorem completionLoop_two_fails_then_ok (env : QEnv) (sys usr : String) (st : St)
    (e1 e2 : PyErr) (resp : Completion)
    (he1 : e1 = PyErr.rateLimit ∨ e1 = PyErr.openai)
    (he2 : e2 = PyErr.rateLimit ∨ e2 = PyErr.openai)
    (h0 : env.completion sys usr 0 = Except.error e1)
    (h1 : env.completion sys usr 1 = Except.error e2)
    (h2 : env.completion sys usr 2 = Except.ok resp) :
    completionLoop env sys usr "" 3 0 st = (pyStrip resp.content, st, 3, 0) := by
  have s0 : completionLoop env sys usr "" 3 0 st =
      bumpCalls (completionLoop env sys usr "" 2 1 st) :=
    completionLoop_retry_step env sys usr "" 1 0 st e1 he1 h0
  have s1 : completionLoop env sys usr "" 2 1 st =
      bumpCalls (completionLoop env sys usr "" 1 2 st) :=
    completionLoop_retry_step env sys usr "" 0 1 st e2 he2 h1
  have s2 : completionLoop env sys usr "" 1 2 st = (pyStrip resp.content, st, 1, 0) :=
    completionLoop_ok_empty env sys usr 0 2 st resp h2
  rw [s0, s1, s2]
  rfl

theorem completionLoop_all_rl (env : QEnv) (sys usr em : String) (st : St)
    (h : ∀ k, env.completion sys usr k = Except.error PyErr.rateLimit) :
    completionLoop env sys usr em 3 0 st = (busyMsg, st, 3, 0) := by
  have s0 : completionLoop env sys usr em 3 0 st =
      bumpCalls (completionLoop env sys usr em 2 1 st) :=
    completionLoop_retry_step env sys usr em 1 0 st PyErr.rateLimit (Or.inl rfl) (h 0)
  have s1 : completionLoop env sys usr em 2 1 st =
      bumpCalls (completionLoop env sys usr em 1 2 st) :=
    completionLoop_retry_step env sys usr em 0 1 st PyErr.rateLimit (Or.inl rfl) (h 1)
  have s2 : completionLoop env sys usr em 1 2 st = (busyMsg, st, 1, 0) :=
    completionLoop_giveup_rl env sys usr em 2 st (h 2)
  rw [s0, s1, s2]
  rfl

theorem completionLoop_all_oa (env : QEnv) (sys usr em : String) (st : St)
    (h : ∀ k, env.completion sys usr k = Except.error PyErr.openai) :
    completionLoop env sys usr em 3 0 st = (connMsg, st, 3, 0) := by
  have s0 : completionLoop env sys usr em 3 0 st =
      bumpCalls (completionLoop env sys usr em 2 1 st) :=
    completionLoop_retry_step env sys usr em 1 0 st PyErr.openai (Or.inr rfl) (h 0)
  have s1 : completionLoop env sys usr em 2 1 st =
      bumpCalls (completionLoop env sys usr em 1 2 st) :=
    completionLoop_retry_step env sys usr em 0 1 st PyErr.openai (Or.inr rfl) (h 1)
  have s2 : completionLoop env sys usr em 1 2 st = (connMsg, st, 1, 0) :=
    completionLoop_giveup_oa env sys usr em 2 st (h 2)
  rw [s0, s1, s2]
  rfl

theorem answer_query_completion_step (env : QEnv) (cfg : RateConfig) (st : St)
    (q a sec : String) (v : Vec)
    (hEnsure : (ensure_embeddings env st sec).2 = none)
    (hEmbed : env.embedQuery (if a = "" then q else q ++ "\nAssignment Question: " ++ a) =
      Except.ok v) :
    answer_query env cfg st q a sec "" =
      (let r := completionLoop env (systemContext sec)
        (promptOf (find_best_chunk v (embsOf (ensure_embeddings env st sec).1 sec)
          (chunksOf (ensure_embeddings env st sec).1 sec)) a q) "" 3 0
        (ensure_embeddings env st sec).1
       (r.1, r.2.1, ⟨0, r.2.2.2, r.2.2.1⟩)) := by
  unfold answer_query answerBody answerAfterCheck
  rw [if_pos rfl]
  simp only [hEnsure, hEmbed, renderBody]

/-- C4 (amended): in the completion-call step of `answer_query`, a rate-limit
upstream failure is retried up to 3 attempts total, and any other upstream
OpenAI error is likewise retried up to 3 attempts total (two additional
retries, not one) before giving up with its generic message; two consecutive
upstream failures followed by a success yield the successful trimmed result
after exactly 3 completion calls; and a non-OpenAI unexpected error is not
retried at all.  (The sleep-based backoff delays between attempts have no
modelled observable effect.) -/
theorem answer_query_retry_behavior (env : QEnv) (cfg : RateConfig) (st : St)
    (q a sec : String) (v : Vec)
    (hEnsure : (ensure_embeddings env st sec).2 = none)
    (hEmbed : env.embedQuery (if a = "" then q else q ++ "\nAssignment Question: " ++ a) =
      Except.ok v) :
    (∀ resp e1 e2, (e1 = PyErr.rateLimit ∨ e1 = PyErr.openai) →
       (e2 = PyErr.rateLimit ∨ e2 = PyErr.openai) →
       (∀ s u, env.completion s u 0 = Except.error e1) →
       (∀ s u, env.completion s u 1 = Except.error e2) →
       (∀ s u, env.completion s u 2 = Except.ok resp) →
       (answer_query env cfg st q a sec "").1 = pyStrip resp.content ∧
       (answer_query env cfg st q a sec "").2.2.completionCalls = 3) ∧
    ((∀ s u k, env.completion s u k = Except.error PyErr.rateLimit) →
       (answer_query env cfg st q a sec "").1 = busyMsg ∧
       (answer_query env cfg st q a sec "").2.2.completionCalls = 3) ∧
    ((∀ s u k, env.completion s u k = Except.error PyErr.openai) →
       (answer_query env cfg st q a sec "").1 = connMsg ∧
       (answer_query env cfg st q a sec "").2.2.completionCalls = 3) ∧
    ((∀ s u, env.completion s u 0 = Except.error PyErr.other) →
       (answer_query env cfg st q a sec "").1 = unexpectedMsg ∧
       (answer_query env cfg st q a sec "").2.2.completionCalls = 1) := by
  rw [answer_query_completion_step env cfg st q a sec v hEnsure hEmbed]
  refine ⟨?_, ?_, ?_, ?_⟩
  · intro resp e1 e2 he1 he2 h0 h1 h2
    have hl := completionLoop_two_fails_then_ok env (systemContext sec)
      (promptOf (find_best_chunk v (embsOf (ensure_embeddings env st sec).1 sec)
        (chunksOf (ensure_embeddings env st sec).1 sec)) a q)
      (ensure_embeddings env st sec).1 e1 e2 resp he1 he2 (h0 _ _) (h1 _ _) (h2 _ _)
    exact ⟨by simp [hl], by simp [hl]⟩
  · intro h
    have hl := completionLoop_all_rl env (systemContext sec)
      (promptOf (find_best_chunk v (embsOf (ensure_embeddings env st sec).1 sec)
        (chunksOf (ensure_embeddings env st sec).1 sec)) a q) ""
      (ensure_embeddings env st sec).1 (fun k => h _ _ k)
    exact ⟨by simp [hl], by simp [hl]⟩
  · intro h
    have hl := completionLoop_all_oa env (systemContext sec)
      (promptOf (find_best_chunk v (embsOf (ensure_embeddings env st sec).1 sec)
        (chunksOf (ensure_embeddings env st sec).1 sec)) a q) ""
      (ensure_embeddings env st sec).1 (fun k => h _ _ k)
    exact ⟨by simp [hl], by simp [hl]⟩
  · intro h
    have hl := completionLoop_other_noretry env (systemContext sec)
      (promptOf (find_best_chunk v (embsOf (ensure_embeddings env st sec).1 sec)
        (chunksOf (ensure_embeddings env st sec).1 sec)) a q) "" 2 0
      (ensure_embeddings env st sec).1 (h _ _)
    exact ⟨by simp [hl], by simp [hl]⟩

/-- Witness for C4 (amended): under the always-rate-limited environment the
call gives up with the busy message after exactly 3 completion calls. -/
theorem answer_query_retry_behavior_witness :
    (answer_query env4w cfg0 st0 "q" "" "Ch.3" "").1 = busyMsg ∧
    (answer_query env4w cfg0 st0 "q" "" "Ch.3" "").2.2.completionCalls = 3 :=
  (answer_query_retry_behavior env4w cfg0 st0 "q" "" "Ch.3" [1] (by decide) rfl).2.1
    (fun _ _ _ => rfl)

/-- Counterexample for C4 as stated: with two consecutive generic (non-rate-
limit) upstream OpenAI failures followed by a success, the code still makes a
third completion call and returns the successful result — the completion
service is called 3 times, not given up after one additional retry (which
would cap the count at 2). -/
theorem retry_other_errors_counterexample :
    (answer_query env4 cfg0 st0 "q" "" "Ch.3" "").2.2.completionCalls = 3 ∧
    (answer_query env4 cfg0 st0 "q" "" "Ch.3" "").1 = "Hello" ∧
    ¬ (answer_query env4 cfg0 st0 "q" "" "Ch.3" "").2.2.completionCalls ≤ 2 := by decide

/-! ### C5: embedding-service failure while building a section index -/

theorem find_best_chunk_nil (q : Vec) (cs : List String) :
    find_best_chunk q [] cs = "" := by
  cases cs <;> rfl

theorem seCompletionLoop_ok_empty (env : QEnv) (sys usr : String) (fuel attempt : Nat)
    (st : SeSt) (resp : Completion)
    (h : env.completion sys usr attempt = Except.ok resp) :
    seCompletionLoop env sys usr "" (fuel + 1) attempt st = (pyStrip resp.content, st, 1, 0) := by
  rw [seCompletionLoop_succ, h]
  simp [seCompletionHandle]

/-- C5 (amended): the two `ensure_embeddings` implementations handle a failed
batch embedding call differently.  In `backend.py` the failure is not caught
inside `ensure_embeddings`: it propagates to `answer_query`'s top-level
handler, which returns the generic technical-error string and never reaches
the completion step (no context-free hint is produced) — though no raw
exception reaches the user.  In `modules/seven_eleven.py` the failure is
caught: `ensure_embeddings` returns normally with an empty embedding list,
retrieval sees "no context available" (empty best chunk), and `answer_query`
proceeds to produce a context-free hint. -/
theorem embed_failure_amended :
    (∀ (env : QEnv) (cfg : RateConfig) (st : St) (q a sec : String) (e : PyErr),
      (ensure_embeddings env st sec).2 = some e →
      (answer_query env cfg st q a sec "").1 = techMsg ∧
      (answer_query env cfg st q a sec "").2.2.completionCalls = 0) ∧
    (∀ (env : QEnv) (st : SeSt) (text : String),
      st.chunks = [] → env.pdfExists sePdfPath = true →
      env.extract sePdfPath = Except.ok text →
      (∀ cs, ∃ er, env.embedBatch cs = Except.error er) →
      (se_ensure_embeddings env st).2 = none ∧ (se_ensure_embeddings env st).1.embs = []) ∧
    (∀ (env : QEnv) (cfg : RateConfig) (st : SeSt) (q a : String) (v : Vec)
      (resp : Completion),
      (se_ensure_embeddings env st).2 = none →
      (se_ensure_embeddings env st).1.embs = [] →
      (∀ s, env.embedQuery s = Except.ok v) →
      env.completion seSystemContext (promptOf "" a q) 0 = Except.ok resp →
      (se_answer_query env cfg st q a "").1 = pyStrip resp.content) := by
  refine ⟨?_, ?_, ?_⟩
  · intro env cfg st q a sec e h
    unfold answer_query answerBody
    rw [if_pos rfl]
    unfold answerAfterCheck
    simp only [h, renderBody]
    exact ⟨by trivial, by trivial⟩
  · intro env st text hcold hpdf hext hfail
    unfold se_ensure_embeddings
    rw [if_neg (by simp [hcold]), if_neg (by simp [hpdf])]
    simp only [hext]
    by_cases hchunks : split_into_chunks text 300 = []
    · rw [if_pos hchunks]
      exact ⟨rfl, rfl⟩
    · rw [if_neg hchunks]
      obtain ⟨er, her⟩ := hfail (split_into_chunks text 300)
      simp only [her]
      exact ⟨by trivial, by trivial⟩
  · intro env cfg st q a v resp hens2 hens1 hq hcomp
    unfold se_answer_query seAnswerBody seAnswerAfterCheck
    rw [if_pos rfl]
    simp only [hens2, hq, hens1, find_best_chunk_nil, seRenderBody]
    have hl := seCompletionLoop_ok_empty env seSystemContext (promptOf "" a q) 2 0
      (se_ensure_embeddings env st).1 resp hcomp
    simp [hl]

/-- Witness for C5 (amended): the backend path with an extraction failure
yields the technical-error message and zero completion calls; the
seven-eleven path with a failing embedding service still ends in a
successful context-free hint. -/
theorem embed_failure_amended_witness :
    ((answer_query env5w1 cfg0 st0 "q" "" "Ch.3" "").1 = techMsg ∧
     (answer_query env5w1 cfg0 st0 "q" "" "Ch.3" "").2.2.completionCalls = 0) ∧
    ((se_ensure_embeddings env5w2 seSt0).2 = none ∧
     (se_ensure_embeddings env5w2 seSt0).1.embs = []) ∧
    (se_answer_query env5w2 cfg0 seSt0 "q" "a" "").1 = pyStrip "Great hint " :=
  ⟨embed_failure_amended.1 env5w1 cfg0 st0 "q" "" "Ch.3" PyErr.other rfl,
   embed_failure_amended.2.1 env5w2 seSt0 "" rfl rfl rfl
     (fun cs => ⟨PyErr.openai, rfl⟩),
   embed_failure_amended.2.2 env5w2 cfg0 seSt0 "q" "a" [1] ⟨"Great hint ", some 2⟩
     (by decide) (by decide) (fun s => rfl) rfl⟩

/-- Counterexample for C5 as stated: in the backend path, with a present
document whose batch embedding call fails, the failure is not surfaced as
"no context available": `answer_query` never reaches the completion step
(zero completion calls) and returns the generic technical-error string
instead of a context-free hint. -/
theorem embed_failure_counterexample :
    (ensure_embeddings env5 st0 "Ch.3").2 = some PyErr.openai ∧
    (answer_query env5 cfg0 st0 "q" "" "Ch.3" "").1 = techMsg ∧
    (answer_query env5 cfg0 st0 "q" "" "Ch.3" "").2.2.completionCalls = 0 := by decide
